import Mathlib

/-!
Verification of the AI Bot Block Checker service (`app.py`).

The development shallow-embeds the single request handler
`check_ai_bot_block` together with the fragments of Python's standard
library that it relies on: `urllib.parse.urlparse` / `urlunparse` /
`quote` / `unquote`, `str.strip` / `lower` / `rstrip` / `splitlines`,
and `urllib.robotparser.RobotFileParser`.  The outcome of the single
outbound HTTP request (`requests.get`) is passed to the embedded
handler as an explicit `FetchOutcome` value, so the handler itself is a
pure function of its query parameters and the fetch outcome.

Strings are modelled as Lean `String`s (lists of unicode scalar
values); byte-level operations (`quote`/`unquote`) work on the UTF-8
encoding, computed explicitly.  Unicode-only niceties of CPython that
no robots.txt content can reasonably exercise (non-Latin-1 whitespace
classes in `str.strip`, locale-free full Unicode case mapping in
`str.lower`, and the exact maximal-subpart replacement positions of
`bytes.decode(errors="replace")`) are modelled by their ASCII/Latin-1
restrictions, which agree with CPython on all ASCII input.
-/

set_option maxHeartbeats 1000000

namespace BotBlock

/-! ### Python string primitives -/

/-- Character class stripped by `str.strip()` (ASCII/Latin-1 whitespace). -/
def pyIsSpace (c : Char) : Bool :=
  c == ' ' || c == '\t' || c == '\n' || c == '\r' || c == '\x0b' || c == '\x0c' ||
  c == '\x1c' || c == '\x1d' || c == '\x1e' || c == '\x1f' || c == '\x85' || c == '\xa0'

def pyStripL (l : List Char) : List Char :=
  ((l.dropWhile pyIsSpace).reverse.dropWhile pyIsSpace).reverse

/-- Python `str.strip()`. -/
def pyStrip (s : String) : String := ⟨pyStripL s.data⟩

/-- Python `str.lower()` on a single character (ASCII case mapping). -/
def pyToLower (c : Char) : Char :=
  if 'A' ≤ c ∧ c ≤ 'Z' then Char.ofNat (c.toNat + 32) else c

/-- Python `str.lower()`. -/
def pyLower (s : String) : String := ⟨s.data.map pyToLower⟩

/-- Python `str.rstrip("/")`. -/
def pyRstripSlash (s : String) : String :=
  ⟨(s.data.reverse.dropWhile (fun c => c == '/')).reverse⟩

/-- Python substring test `sub in s`. -/
def strContains (s sub : String) : Bool :=
  (List.range (s.data.length + 1)).any (fun i => sub.data.isPrefixOf (s.data.drop i))

/-- Python `s.startswith(pre)`. -/
def strStartsWith (s pre : String) : Bool := pre.data.isPrefixOf s.data

/-- Python `s.split(":", 1)`: `none` when there is no colon, otherwise the
pieces before and after the first colon. -/
def splitOnceColon (s : String) : Option (String × String) :=
  if s.data.contains ':' then
    some (⟨s.data.takeWhile (fun c => !(c == ':'))⟩,
          ⟨(s.data.dropWhile (fun c => !(c == ':'))).drop 1⟩)
  else none

/-- Line-break characters recognised by `str.splitlines()`
(`\r\n` is handled separately as a single boundary). -/
def pyIsLineBreak (c : Char) : Bool :=
  c == '\n' || c == '\r' || c == '\x0b' || c == '\x0c' ||
  c == '\x1c' || c == '\x1d' || c == '\x1e' || c == '\x85' ||
  c == '\u2028' || c == '\u2029'

def pySplitlinesGo : List Char → List Char → List String
  | [], acc => if acc.isEmpty then [] else [⟨acc.reverse⟩]
  | '\r' :: '\n' :: rest, acc => (⟨acc.reverse⟩ : String) :: pySplitlinesGo rest []
  | c :: rest, acc =>
    if pyIsLineBreak c then (⟨acc.reverse⟩ : String) :: pySplitlinesGo rest []
    else pySplitlinesGo rest (c :: acc)

/-- Python `str.splitlines()`. -/
def pySplitlines (s : String) : List String := pySplitlinesGo s.data []

/-! ### UTF-8 encoding and percent escaping (`urllib.parse.quote` / `unquote`) -/

/-- UTF-8 encoding of a single unicode scalar value. -/
def utf8EncodeCharL (c : Char) : List UInt8 :=
  let n := c.toNat
  if n < 0x80 then [UInt8.ofNat n]
  else if n < 0x800 then
    [UInt8.ofNat (0xC0 ||| (n >>> 6)), UInt8.ofNat (0x80 ||| (n &&& 0x3F))]
  else if n < 0x10000 then
    [UInt8.ofNat (0xE0 ||| (n >>> 12)), UInt8.ofNat (0x80 ||| ((n >>> 6) &&& 0x3F)),
     UInt8.ofNat (0x80 ||| (n &&& 0x3F))]
  else
    [UInt8.ofNat (0xF0 ||| (n >>> 18)), UInt8.ofNat (0x80 ||| ((n >>> 12) &&& 0x3F)),
     UInt8.ofNat (0x80 ||| ((n >>> 6) &&& 0x3F)), UInt8.ofNat (0x80 ||| (n &&& 0x3F))]

/-- Bytes left unescaped by `quote(s)` with its default `safe="/"`:
ASCII alphanumerics, `_`, `.`, `-`, `~` and `/`. -/
def quoteSafeByte (b : UInt8) : Bool :=
  decide ((65 ≤ b.toNat ∧ b.toNat ≤ 90) ∨ (97 ≤ b.toNat ∧ b.toNat ≤ 122) ∨
          (48 ≤ b.toNat ∧ b.toNat ≤ 57) ∨ b.toNat = 95 ∨ b.toNat = 46 ∨
          b.toNat = 45 ∨ b.toNat = 126 ∨ b.toNat = 47)

/-- Uppercase hexadecimal digit, as used by `quote`. -/
def hexDigitChar (n : Nat) : Char :=
  if n < 10 then Char.ofNat (48 + n) else Char.ofNat (55 + n)

/-- Python `urllib.parse.quote(s)` (default `safe="/"`): percent-escape every
non-safe byte of the UTF-8 encoding. -/
def pyQuote (s : String) : String :=
  ⟨(s.data.foldr (fun c acc => utf8EncodeCharL c ++ acc) []).foldr
    (fun b acc =>
      (if quoteSafeByte b then [Char.ofNat b.toNat]
       else ['%', hexDigitChar (b.toNat / 16), hexDigitChar (b.toNat % 16)]) ++ acc) []⟩

/-- Value of an ASCII hexadecimal digit. -/
def hexVal (c : Char) : Option Nat :=
  if '0' ≤ c ∧ c ≤ '9' then some (c.toNat - 48)
  else if 'A' ≤ c ∧ c ≤ 'F' then some (c.toNat - 55)
  else if 'a' ≤ c ∧ c ≤ 'f' then some (c.toNat - 87)
  else none

/-- Byte sequence produced by percent-decoding: a valid `%XX` escape becomes
one byte, anything else contributes its UTF-8 bytes (as in CPython's
`unquote_to_bytes`, where an invalid escape keeps the literal `%`). -/
def unquoteBytes : List Char → List UInt8
  | [] => []
  | '%' :: c1 :: c2 :: rest =>
    match hexVal c1, hexVal c2 with
    | some h, some lo => UInt8.ofNat (16 * h + lo) :: unquoteBytes rest
    | _, _ => utf8EncodeCharL '%' ++ unquoteBytes (c1 :: c2 :: rest)
  | c :: rest => utf8EncodeCharL c ++ unquoteBytes rest

def isContByte (b : UInt8) : Bool := decide (128 ≤ b.toNat ∧ b.toNat < 192)

def contVal (b : UInt8) : Nat := b.toNat % 64

/-- U+FFFD, the replacement character used by `decode(errors="replace")`. -/
def replChar : Char := '�'

def mkUChar (lowBound cp : Nat) : Char :=
  if lowBound ≤ cp ∧ cp.isValidChar then Char.ofNat cp else replChar

/-- UTF-8 decoding with replacement of invalid sequences (fuel-indexed to make
termination evident; the fuel is the byte count, which always suffices since
every step consumes at least one byte). -/
def utf8DecodeFuel : Nat → List UInt8 → List Char
  | 0, _ => []
  | _ + 1, [] => []
  | fuel + 1, b :: rest =>
    let n := b.toNat
    if n < 128 then Char.ofNat n :: utf8DecodeFuel fuel rest
    else if n < 194 then replChar :: utf8DecodeFuel fuel rest
    else if n < 224 then
      match rest with
      | b2 :: rest2 =>
        if isContByte b2 then
          mkUChar 128 ((n % 32) * 64 + contVal b2) :: utf8DecodeFuel fuel rest2
        else replChar :: utf8DecodeFuel fuel rest
      | [] => [replChar]
    else if n < 240 then
      match rest with
      | b2 :: b3 :: rest3 =>
        if isContByte b2 && isContByte b3 then
          mkUChar 2048 ((n % 16) * 4096 + contVal b2 * 64 + contVal b3) ::
            utf8DecodeFuel fuel rest3
        else replChar :: utf8DecodeFuel fuel rest
      | _ => [replChar]
    else if n < 248 then
      match rest with
      | b2 :: b3 :: b4 :: rest4 =>
        if isContByte b2 && isContByte b3 && isContByte b4 then
          mkUChar 65536 ((n % 8) * 262144 + contVal b2 * 4096 + contVal b3 * 64 + contVal b4) ::
            utf8DecodeFuel fuel rest4
        else replChar :: utf8DecodeFuel fuel rest
      | _ => [replChar]
    else replChar :: utf8DecodeFuel fuel rest

def utf8DecodeL (l : List UInt8) : List Char := utf8DecodeFuel l.length l

/-- Python `urllib.parse.unquote(s)` (default `encoding="utf-8",
errors="replace"`): the identity when no `%` occurs, otherwise
percent-decode to bytes and decode as UTF-8. -/
def pyUnquote (s : String) : String :=
  if s.data.contains '%' then ⟨utf8DecodeL (unquoteBytes s.data)⟩ else s

/-! ### `urllib.parse.urlsplit` / `urlparse` / `urlunsplit` / `urlunparse` -/

/-- Characters removed from the left of the URL by `urlsplit`
(WHATWG C0 controls and space). -/
def c0OrSpace (c : Char) : Bool := decide (c.toNat ≤ 32)

/-- Bytes removed from anywhere in the URL by `urlsplit`. -/
def tabCrLf (c : Char) : Bool := c == '\t' || c == '\r' || c == '\n'

def urlPreprocess (l : List Char) : List Char :=
  (l.dropWhile c0OrSpace).filter (fun c => !tabCrLf c)

/-- Characters allowed in a URL scheme. -/
def schemeChar (c : Char) : Bool :=
  c.isAlpha || c.isDigit || c == '+' || c == '-' || c == '.'

/-- Scheme recognition of `urlsplit`: the text before the first colon is a
scheme when it is nonempty, starts with an ASCII letter and consists of
scheme characters only; the scheme is lowercased. -/
def splitSchemeL (u : List Char) : List Char × List Char :=
  match u.findIdx? (fun c => c == ':') with
  | some i =>
    if 0 < i ∧ (u.headD ' ').isAlpha ∧ (u.take i).all schemeChar then
      ((u.take i).map pyToLower, u.drop (i + 1))
    else ([], u)
  | none => ([], u)

/-- A character that ends the netloc in `urlsplit`. -/
def notNetlocDelim (c : Char) : Bool := !(c == '/' || c == '?' || c == '#')

/-- Netloc recognition of `urlsplit`: after a leading `//`, the netloc runs
up to the first `/`, `?` or `#`. -/
def splitNetlocL (u : List Char) : List Char × List Char :=
  if u.take 2 = ['/', '/'] then
    ((u.drop 2).takeWhile notNetlocDelim, (u.drop 2).dropWhile notNetlocDelim)
  else ([], u)

/-- Split at the first `#`: `url.split('#', 1)` (no-op when `#` is absent). -/
def splitFragmentL (u : List Char) : List Char × List Char :=
  (u.takeWhile (fun c => !(c == '#')), (u.dropWhile (fun c => !(c == '#'))).drop 1)

/-- Split at the first `?`: `url.split('?', 1)` (no-op when `?` is absent). -/
def splitQueryL (u : List Char) : List Char × List Char :=
  (u.takeWhile (fun c => !(c == '?')), (u.dropWhile (fun c => !(c == '?'))).drop 1)

structure UrlSplitResult where
  scheme : String
  netloc : String
  path : String
  query : String
  fragment : String
deriving Repr, DecidableEq

/-- Python `urllib.parse.urlsplit(url)` (with default arguments): the value
returned on inputs where CPython returns.  CPython can also *raise*
`ValueError` instead of returning: the bracket-mismatch condition of that
raise is modelled exactly by `invalidIPv6Url` below, and `urlsplitNoRaise`
gives a sufficient condition under which no raise path can fire; theorems
that assert concrete return values carry that condition. -/
def pyUrlsplit (url : String) : UrlSplitResult :=
  let u0 := urlPreprocess url.data
  let u1 := (splitSchemeL u0).2
  let u2 := (splitNetlocL u1).2
  let u3 := (splitFragmentL u2).1
  { scheme := ⟨(splitSchemeL u0).1⟩
    netloc := ⟨(splitNetlocL u1).1⟩
    path := ⟨(splitQueryL u3).1⟩
    query := ⟨(splitQueryL u3).2⟩
    fragment := ⟨(splitFragmentL u2).2⟩ }

/-- CPython `urlsplit` raises `ValueError("Invalid IPv6 URL")` when the
netloc contains `[` without `]` or `]` without `[` (when there is no `//`
netloc the check is vacuous, matching the empty netloc here).  This is the
raise path present in every CPython version; two further, rarer raise
sources — the 3.11+ validation of a balanced bracketed host (which needs a
full `ipaddress` parser) and `_checknetloc`'s NFKC check, which can only
fire on a non-ASCII netloc — are not modelled, and theorems avoid them via
`urlsplitNoRaise`. -/
def invalidIPv6Url (url : String) : Bool :=
  ((pyUrlsplit url).netloc.data.any (fun c => c == '[') &&
   !(pyUrlsplit url).netloc.data.any (fun c => c == ']')) ||
  ((pyUrlsplit url).netloc.data.any (fun c => c == ']') &&
   !(pyUrlsplit url).netloc.data.any (fun c => c == '['))

/-- Sufficient condition for CPython `urlsplit(url)` to return rather than
raise: the parsed netloc is all-ASCII (so `_checknetloc` returns
immediately) and contains no square bracket (so neither the
`Invalid IPv6 URL` check nor the 3.11+ bracketed-host validation can
fire).  On such inputs `pyUrlsplit` agrees with CPython. -/
def urlsplitNoRaise (url : String) : Bool :=
  (pyUrlsplit url).netloc.data.all
    (fun c => decide (c.toNat ≤ 127) && !(c == '[') && !(c == ']'))

/-- Position from which `_splitparams` searches for `;`: the index of the
last `/`, or the beginning of the string when there is no `/`. -/
def paramsSearchStart (l : List Char) : Nat :=
  if l.contains '/' then l.length - 1 - ((l.reverse.findIdx? (fun c => c == '/')).getD 0)
  else 0

/-- CPython `_splitparams`, only ever called when `;` occurs in the path:
the params are the text after the first `;` in the last path segment. -/
def pySplitparams (l : List Char) : List Char × List Char :=
  match (l.drop (paramsSearchStart l)).findIdx? (fun c => c == ';') with
  | some j => (l.take (paramsSearchStart l + j), l.drop (paramsSearchStart l + j + 1))
  | none => (l, [])

structure UrlParseResult where
  scheme : String
  netloc : String
  path : String
  params : String
  query : String
  fragment : String
deriving Repr, DecidableEq

/-- Python `urllib.parse.urlparse(url)`. -/
def pyUrlparse (url : String) : UrlParseResult :=
  if (pyUrlsplit url).path.data.contains ';' then
    { scheme := (pyUrlsplit url).scheme, netloc := (pyUrlsplit url).netloc,
      path := ⟨(pySplitparams (pyUrlsplit url).path.data).1⟩,
      params := ⟨(pySplitparams (pyUrlsplit url).path.data).2⟩,
      query := (pyUrlsplit url).query, fragment := (pyUrlsplit url).fragment }
  else
    { scheme := (pyUrlsplit url).scheme, netloc := (pyUrlsplit url).netloc,
      path := (pyUrlsplit url).path, params := "",
      query := (pyUrlsplit url).query, fragment := (pyUrlsplit url).fragment }

/-- Python `urllib.parse.urlunsplit`. -/
def pyUrlunsplit (scheme netloc url query fragment : String) : String :=
  let url1 :=
    if netloc ≠ "" ∨ (url ≠ "" ∧ url.data.take 2 = ['/', '/']) then
      "//" ++ netloc ++ (if url ≠ "" ∧ url.data.take 1 ≠ ['/'] then "/" ++ url else url)
    else url
  let url2 := if scheme ≠ "" then scheme ++ ":" ++ url1 else url1
  let url3 := if query ≠ "" then url2 ++ "?" ++ query else url2
  if fragment ≠ "" then url3 ++ "#" ++ fragment else url3

/-- Python `urllib.parse.urlunparse`. -/
def pyUrlunparse (scheme netloc url params query fragment : String) : String :=
  pyUrlunsplit scheme netloc (if params ≠ "" then url ++ ";" ++ params else url) query fragment

/-! ### `normalize_to_origin` (app.py) -/

/-- `app.py` `normalize_to_origin`: return just the scheme + domain from any
URL, defaulting the scheme to `https` and falling back to the path when the
netloc is empty (to allow bare `example.com` input).  Since the inner
`urlparse` can raise in CPython, this total model gives the returned value
only on inputs where `urlparse` returns; theorems about its value assume
`urlsplitNoRaise`. -/
def normalize_to_origin (url : String) : String :=
  let p := pyUrlparse url
  let scheme := if p.scheme = "" then "https" else p.scheme
  let netloc := if p.netloc = "" then p.path else p.netloc
  pyUrlunparse scheme netloc "" "" "" ""

/-! ### `urllib.robotparser.RobotFileParser` -/

structure RuleLine where
  path : String
  allowance : Bool
deriving Repr, DecidableEq

/-- `RuleLine.__init__`: an empty disallow value means allow-all; the path is
normalised by a `urlparse`/`urlunparse` round trip and then quoted.  The
inner `urlparse` can raise `ValueError` in CPython (e.g. for the value
`//[`); `parseStep` tests `invalidIPv6Url` before constructing a `RuleLine`
and models that raise by aborting the parse. -/
def mkRuleLine (path : String) (allowance : Bool) : RuleLine :=
  let allowance := if path = "" ∧ allowance = false then true else allowance
  let p := pyUrlparse path
  let path := pyUrlunparse p.scheme p.netloc p.path p.params p.query p.fragment
  { path := pyQuote path, allowance := allowance }

/-- `RuleLine.applies_to`. -/
def RuleLine.applies_to (l : RuleLine) (filename : String) : Bool :=
  l.path == "*" || strStartsWith filename l.path

structure Entry where
  useragents : List String := []
  rulelines : List RuleLine := []
deriving Repr, DecidableEq

/-- `Entry.applies_to`: the agent name is its first `/`-separated token,
lowercased; an entry applies when it lists `*` or an agent that occurs as a
substring of the name. -/
def Entry.applies_to (e : Entry) (useragent : String) : Bool :=
  let ua := pyLower ⟨useragent.data.takeWhile (fun c => !(c == '/'))⟩
  e.useragents.any (fun agent => agent == "*" || strContains ua (pyLower agent))

/-- `Entry.allowance`: the first matching rule line decides; no match allows. -/
def Entry.allowance (e : Entry) (filename : String) : Bool :=
  match e.rulelines.find? (fun l => l.applies_to filename) with
  | some l => l.allowance
  | none => true

structure RobotFileParser where
  entries : List Entry := []
  default_entry : Option Entry := none
  disallow_all : Bool := false
  allow_all : Bool := false
  last_checked : Bool := false
deriving Repr, DecidableEq

/-- `RobotFileParser._add_entry`: the first `*` entry becomes the default
entry, every other entry is appended. -/
def RobotFileParser._add_entry (rp : RobotFileParser) (entry : Entry) : RobotFileParser :=
  if entry.useragents.contains "*" then
    match rp.default_entry with
    | none => { rp with default_entry := some entry }
    | some _ => rp
  else { rp with entries := rp.entries ++ [entry] }

/-- One iteration of the state machine in `RobotFileParser.parse`
(state 0 start, 1 after a user-agent line, 2 after a rule line).  The last
component of the accumulator records an escaped `ValueError`: a disallow or
allow value whose netloc has mismatched brackets makes `RuleLine`'s inner
`urlparse` raise before the rule is appended, so the entry and state are
left untouched and all remaining lines are skipped. -/
def parseStep (acc : RobotFileParser × Entry × Nat × Bool) (line : String) :
    RobotFileParser × Entry × Nat × Bool :=
  let rp := acc.1
  let entry := acc.2.1
  let state := acc.2.2.1
  if acc.2.2.2 then acc
  else
    let rp1 := if line = "" ∧ state = 2 then rp._add_entry entry else rp
    let entry1 := if line = "" ∧ (state = 1 ∨ state = 2) then ({} : Entry) else entry
    let state1 := if line = "" ∧ (state = 1 ∨ state = 2) then 0 else state
    let stripped := pyStrip ⟨line.data.takeWhile (fun c => !(c == '#'))⟩
    if stripped = "" then (rp1, entry1, state1, false)
    else
      match splitOnceColon stripped with
      | none => (rp1, entry1, state1, false)
      | some (k, v) =>
        let key := pyLower (pyStrip k)
        let val := pyUnquote (pyStrip v)
        if key = "user-agent" then
          let rp2 := if state1 = 2 then rp1._add_entry entry1 else rp1
          let entry2 := if state1 = 2 then ({} : Entry) else entry1
          (rp2, { entry2 with useragents := entry2.useragents ++ [val] }, 1, false)
        else if key = "disallow" then
          if state1 ≠ 0 then
            if invalidIPv6Url val then (rp1, entry1, state1, true)
            else
              (rp1, { entry1 with rulelines := entry1.rulelines ++ [mkRuleLine val false] },
               2, false)
          else (rp1, entry1, state1, false)
        else if key = "allow" then
          if state1 ≠ 0 then
            if invalidIPv6Url val then (rp1, entry1, state1, true)
            else
              (rp1, { entry1 with rulelines := entry1.rulelines ++ [mkRuleLine val true] },
               2, false)
          else (rp1, entry1, state1, false)
        else if key = "crawl-delay" ∨ key = "request-rate" then
          if state1 ≠ 0 then (rp1, entry1, 2, false) else (rp1, entry1, state1, false)
        else (rp1, entry1, state1, false)

/-- `RobotFileParser.parse` over a list of lines (it first calls
`self.modified()`, making `last_checked` truthy).  The boolean result
reports whether a `ValueError` escaped `parse`: then the remaining lines
and the final `_add_entry` were skipped and the parser keeps the state it
had accumulated up to the offending line, exactly the state the caller's
`except` branch observes. -/
def RobotFileParser.parse (rp : RobotFileParser) (lines : List String) :
    RobotFileParser × Bool :=
  let acc := lines.foldl parseStep ({ rp with last_checked := true }, ({} : Entry), 0, false)
  if acc.2.2.2 then (acc.1, true)
  else if acc.2.2.1 = 2 then (acc.1._add_entry acc.2.1, false)
  else (acc.1, false)

/-- `RobotFileParser.can_fetch`: reduce the URL to its quoted path (plus
params/query/fragment), defaulting to `/`, and consult the first applicable
entry, then the default entry, else allow.  The inner `urlparse` can raise
for a bracket-mismatched URL argument; the handler calls this outside any
`try`, so such an exception would escape the endpoint entirely (no
`CheckResponse` is produced) — the total model is only consulted on
arguments for which `urlparse` returns. -/
def RobotFileParser.can_fetch (rp : RobotFileParser) (useragent url : String) : Bool :=
  if rp.disallow_all then false
  else if rp.allow_all then true
  else if !rp.last_checked then false
  else
    let p := pyUrlparse (pyUnquote url)
    let url2 := pyQuote (pyUrlunparse "" "" p.path p.params p.query p.fragment)
    let url3 := if url2 = "" then "/" else url2
    match rp.entries.find? (fun e => e.applies_to useragent) with
    | some e => e.allowance url3
    | none =>
      match rp.default_entry with
      | some e => e.allowance url3
      | none => true

/-! ### The `/check` handler (app.py `check_ai_bot_block`) -/

/-- Outcome of the single `requests.get(robots_url, timeout=8,
allow_redirects=True)` call: either a `requests.RequestException` (identified
by its class name) or a decoded response with its status code and text. -/
inductive FetchOutcome where
  | error (errClass : String)
  | response (status : Nat) (text : String)
deriving Repr, DecidableEq

structure BotResult where
  userAgent : String
  canFetchRoot : Bool
  canFetchSitewide : Bool
  notes : Option String := none
deriving Repr, DecidableEq

structure CheckResponse where
  robotsTxtFound : Bool
  robotsUrl : String
  statusCode : Option Nat
  blockedBots : List String
  results : List BotResult
  robotsTxt : Option String := none
  warnings : List String := []
deriving Repr, DecidableEq

/-- Body of the per-agent loop of the handler: evaluate `can_fetch` for the
agent against `origin + "/"`, append the `BotResult`, and record the agent in
`blocked` when the root fetch is denied. -/
def botStep (rp : RobotFileParser) (origin : String)
    (acc : List BotResult × List String) (ua : String) : List BotResult × List String :=
  let can_root := rp.can_fetch ua (origin ++ "/")
  (acc.1 ++ [{ userAgent := ua, canFetchRoot := can_root, canFetchSitewide := can_root,
               notes := none }],
   if can_root then acc.2 else acc.2 ++ [ua])

/-- `app.py` `check_ai_bot_block`.  When the embedded `parse` reports an
escaped `ValueError`, the handler's `except` branch records
`Parse warning: ValueError` and evaluation proceeds with the partially
filled parser, as in the source. -/
def check_ai_bot_block (url : String) (bots : List String) (includeRobotsTxt : Bool)
    (fetchOutcome : FetchOutcome) : CheckResponse :=
  let origin := pyRstripSlash (normalize_to_origin url)
  let robots_url := origin ++ "/robots.txt"
  match fetchOutcome with
  | .error e =>
    { robotsTxtFound := false, robotsUrl := robots_url, statusCode := none,
      blockedBots := [], results := [], robotsTxt := none,
      warnings := ["Fetch error: " ++ e] }
  | .response status text =>
    if status ≠ 200 ∨ pyStrip text = "" then
      { robotsTxtFound := false, robotsUrl := robots_url, statusCode := some status,
        blockedBots := [], results := [], robotsTxt := none, warnings := [] }
    else
      let pr := RobotFileParser.parse {} (pySplitlines text)
      let resBlk := bots.foldl (botStep pr.1 origin) ([], [])
      { robotsTxtFound := true, robotsUrl := robots_url, statusCode := some status,
        blockedBots := resBlk.2, results := resBlk.1,
        robotsTxt := if includeRobotsTxt then some text else none,
        warnings := if pr.2 then ["Parse warning: ValueError"] else [] }

/-! ### Predicates used to state the claims -/

/-- The characters after the first `://`, i.e. everything following the
scheme separator of an origin-shaped string (empty when no `://` occurs). -/
def afterSchemeSep : List Char → List Char
  | [] => []
  | ':' :: '/' :: '/' :: rest => rest
  | _ :: rest => afterSchemeSep rest

/-- The host-and-beyond portion of an origin-shaped string. -/
def hostPart (s : String) : String := ⟨afterSchemeSep s.data⟩

end BotBlock

namespace BotBlock

/-! ### Helper lemmas -/

theorem all_of_sublist {α : Type} {p : α → Bool} {l₁ l₂ : List α}
    (hs : List.Sublist l₁ l₂) (h : l₂.all p = true) : l₁.all p = true := by
  rw [List.all_eq_true] at h ⊢
  exact fun x hx => h x (hs.subset hx)

theorem foldl_botStep (rp : RobotFileParser) (origin : String) (bots : List String) :
    ∀ (res : List BotResult) (blk : List String),
      bots.foldl (botStep rp origin) (res, blk) =
        (res ++ bots.map (fun ua =>
            { userAgent := ua,
              canFetchRoot := rp.can_fetch ua (origin ++ "/"),
              canFetchSitewide := rp.can_fetch ua (origin ++ "/"),
              notes := none }),
         blk ++ bots.filter (fun ua => !rp.can_fetch ua (origin ++ "/"))) := by
  induction bots with
  | nil => intro res blk; simp
  | cons ua bots ih =>
    intro res blk
    rw [List.foldl_cons]
    cases h : rp.can_fetch ua (origin ++ "/") with
    | false =>
      simp only [botStep, h, Bool.false_eq_true, if_false]
      rw [ih]
      simp [h, List.filter_cons, List.append_assoc]
    | true =>
      simp only [botStep, h, if_true]
      rw [ih]
      simp [h, List.filter_cons, List.append_assoc]

theorem splitNetloc_all (u : List Char) :
    ((splitNetlocL u).1).all notNetlocDelim = true := by
  unfold splitNetlocL
  split
  · exact List.all_takeWhile
  · rfl

theorem urlsplit_netloc_all (url : String) :
    (pyUrlsplit url).netloc.data.all notNetlocDelim = true :=
  splitNetloc_all _

theorem urlsplit_path_noQuery (url : String) :
    (pyUrlsplit url).path.data.all (fun c => !(c == '?')) = true :=
  List.all_takeWhile

theorem urlsplit_path_noFrag (url : String) :
    (pyUrlsplit url).path.data.all (fun c => !(c == '#')) = true :=
  all_of_sublist (List.takeWhile_sublist _) List.all_takeWhile

theorem pySplitparams_all {p : Char → Bool} (l : List Char) (h : l.all p = true) :
    ((pySplitparams l).1).all p = true := by
  unfold pySplitparams
  split
  · exact all_of_sublist (List.take_sublist _ _) h
  · exact h

theorem urlparse_path_all {p : Char → Bool} (url : String)
    (h : (pyUrlsplit url).path.data.all p = true) :
    (pyUrlparse url).path.data.all p = true := by
  unfold pyUrlparse
  split
  · exact pySplitparams_all _ h
  · exact h

theorem urlparse_netloc (url : String) :
    (pyUrlparse url).netloc = (pyUrlsplit url).netloc := by
  unfold pyUrlparse
  split <;> rfl

theorem urlunsplit_origin (scheme host : String) (hs : scheme ≠ "") (hh : host ≠ "") :
    pyUrlunparse scheme host "" "" "" "" = scheme ++ "://" ++ host := by
  have h1 : pyUrlunparse scheme host "" "" "" "" = scheme ++ ":" ++ ("//" ++ host ++ "") := by
    simp [pyUrlunparse, pyUrlunsplit, hs, hh]
  have h2 : (":" : String) ++ "//" = "://" := rfl
  rw [h1, String.append_empty, ← String.append_assoc, String.append_assoc scheme ":" "//", h2]

theorem urlsplitNoRaise_not_invalid (url : String) (h : urlsplitNoRaise url = true) :
    invalidIPv6Url url = false := by
  unfold urlsplitNoRaise at h
  rw [List.all_eq_true] at h
  have key : ∀ br : Char, (br = '[' ∨ br = ']') →
      (pyUrlsplit url).netloc.data.any (fun c => c == br) = false := by
    intro br hbr
    rw [List.any_eq_false]
    intro c hcmem hceq
    have hall := h c hcmem
    rw [show c = br from eq_of_beq hceq] at hall
    rcases hbr with rfl | rfl <;> simp at hall
  simp [invalidIPv6Url, key '[' (Or.inl rfl), key ']' (Or.inr rfl)]

end BotBlock

namespace BotBlock

/-! ### The claims -/

/-- C1: in every response of the `/check` handler, `blockedBots` is exactly
the ordered subset of the requested bots whose `BotResult` has
`canFetchRoot = false`: an agent appears in `blockedBots` iff its result's
`canFetchRoot` is false, in the original request order. -/
theorem claim1_blockedBots_is_blocked_subset (url : String) (bots : List String)
    (inc : Bool) (fetch : FetchOutcome) :
    (check_ai_bot_block url bots inc fetch).blockedBots =
      ((check_ai_bot_block url bots inc fetch).results.filter
        (fun r => !r.canFetchRoot)).map (fun r => r.userAgent) := by
  cases fetch with
  | error e => rfl
  | response status text =>
    by_cases hc : status ≠ 200 ∨ pyStrip text = ""
    · simp [check_ai_bot_block, hc]
    · simp [check_ai_bot_block, hc]
      rw [foldl_botStep]
      simp [List.filter_map, Function.comp_def, List.map_map, List.map_id']

/-- C2 counterexample: on a failed fetch the handler returns an empty
`results` list, so with one requested bot the lengths differ and the claim,
which quantifies over all inputs, fails. -/
theorem claim2_counterexample :
    (check_ai_bot_block "https://example.com" ["GPTBot"] true
        (.error "ConnectionError")).results.length ≠
      (["GPTBot"] : List String).length := by
  decide

/-- C2 (amended): whenever the robots.txt file was found
(`robotsTxtFound = true`), `results` has the same length as the requested
bots list and the i-th result's `userAgent` is the i-th requested bot; on
the fetch-error and not-found branches `results` is empty instead. -/
theorem claim2_results_align_when_found (url : String) (bots : List String)
    (inc : Bool) (fetch : FetchOutcome)
    (h : (check_ai_bot_block url bots inc fetch).robotsTxtFound = true) :
    (check_ai_bot_block url bots inc fetch).results.length = bots.length ∧
    (check_ai_bot_block url bots inc fetch).results.map (fun r => r.userAgent) = bots := by
  cases fetch with
  | error e => simp [check_ai_bot_block] at h
  | response status text =>
    by_cases hc : status ≠ 200 ∨ pyStrip text = ""
    · simp [check_ai_bot_block, hc] at h
    · simp [check_ai_bot_block, hc]
      rw [foldl_botStep]
      simp [List.map_map, Function.comp_def, List.map_id']

theorem claim2_results_align_when_found_witness :
    (check_ai_bot_block "https://example.com" ["GPTBot"] true
        (.response 200 "User-agent: GPTBot\nDisallow: /")).results.length =
      (["GPTBot"] : List String).length ∧
    (check_ai_bot_block "https://example.com" ["GPTBot"] true
        (.response 200 "User-agent: GPTBot\nDisallow: /")).results.map
        (fun r => r.userAgent) = ["GPTBot"] :=
  claim2_results_align_when_found "https://example.com" ["GPTBot"] true
    (.response 200 "User-agent: GPTBot\nDisallow: /") (by decide)

/-- C3 counterexample: `normalize_to_origin` does not always return a string
free of path components.  On the schemeless input `example.com/path` the
whole path lands in the host position, and the text after `://` in the
result contains a slash, i.e. the result retains a path. -/
theorem claim3_counterexample :
    normalize_to_origin "example.com/path" = "https://example.com/path" ∧
    (hostPart (normalize_to_origin "example.com/path")).data.contains '/' = true := by
  constructor
  · decide
  · decide

/-- C3 (amended): `normalize_to_origin` returns
`(scheme or https) + "://" + (netloc or path)`.  On inputs where CPython's
`urlsplit` returns rather than raising `ValueError` — guaranteed when the
parsed netloc is all-ASCII and bracket-free, which in particular makes the
modelled `Invalid IPv6 URL` raise condition false — and where the parsed
netloc is nonempty, or the parsed path is nonempty and slash-free (the
bare-host case), the host portion contains no `/`, `?` or `#`, so the
result is an origin `scheme://host[:port]` with no path, query or
fragment; the scheme defaults to `https`, and `example.com` normalizes to
`https://example.com`. -/
theorem claim3_origin_normalization (url : String)
    (hok : urlsplitNoRaise url = true)
    (h : (pyUrlparse url).netloc ≠ "" ∨
         ((pyUrlparse url).path ≠ "" ∧
          (pyUrlparse url).path.data.all (fun c => !(c == '/')) = true)) :
    invalidIPv6Url url = false ∧
    normalize_to_origin url =
      (if (pyUrlparse url).scheme = "" then "https" else (pyUrlparse url).scheme) ++
        "://" ++
        (if (pyUrlparse url).netloc = "" then (pyUrlparse url).path
         else (pyUrlparse url).netloc) ∧
    (if (pyUrlparse url).netloc = "" then (pyUrlparse url).path
     else (pyUrlparse url).netloc).data.all notNetlocDelim = true ∧
    normalize_to_origin "example.com" = "https://example.com" := by
  have hsch : (if (pyUrlparse url).scheme = "" then "https" else (pyUrlparse url).scheme) ≠ "" := by
    by_cases hs : (pyUrlparse url).scheme = ""
    · rw [if_pos hs]; decide
    · rw [if_neg hs]; exact hs
  have hhost : (if (pyUrlparse url).netloc = "" then (pyUrlparse url).path
      else (pyUrlparse url).netloc) ≠ "" := by
    by_cases hn : (pyUrlparse url).netloc = ""
    · rw [if_pos hn]
      rcases h with hnn | hp
      · exact absurd hn hnn
      · exact hp.1
    · rw [if_neg hn]; exact hn
  refine ⟨urlsplitNoRaise_not_invalid url hok, urlunsplit_origin _ _ hsch hhost, ?_, by decide⟩
  by_cases hn : (pyUrlparse url).netloc = ""
  · rw [if_pos hn]
    rcases h with hnn | hp
    · exact absurd hn hnn
    · obtain ⟨-, hslash⟩ := hp
      have hq := urlparse_path_all url (urlsplit_path_noQuery url)
      have hf := urlparse_path_all url (urlsplit_path_noFrag url)
      rw [List.all_eq_true] at hq hf hslash ⊢
      intro c hc
      have h1 := hq c hc
      have h2 := hf c hc
      have h3 := hslash c hc
      simp only [Bool.not_eq_true', beq_eq_false_iff_ne, ne_eq] at h1 h2 h3
      simp [notNetlocDelim, h1, h2, h3]
  · rw [if_neg hn, urlparse_netloc]
    exact urlsplit_netloc_all url

theorem claim3_origin_normalization_witness :
    invalidIPv6Url "example.com" = false ∧
    normalize_to_origin "example.com" =
      (if (pyUrlparse "example.com").scheme = "" then "https"
       else (pyUrlparse "example.com").scheme) ++ "://" ++
        (if (pyUrlparse "example.com").netloc = "" then (pyUrlparse "example.com").path
         else (pyUrlparse "example.com").netloc) ∧
    (if (pyUrlparse "example.com").netloc = "" then (pyUrlparse "example.com").path
     else (pyUrlparse "example.com").netloc).data.all notNetlocDelim = true ∧
    normalize_to_origin "example.com" = "https://example.com" :=
  claim3_origin_normalization "example.com" (by decide) (Or.inr ⟨by decide, by decide⟩)

/-- C4: on a network/transport error (a `requests.RequestException`), the
handler responds with `robotsTxtFound = false`, `statusCode = null`, empty
`blockedBots` and `results`, and exactly one warning naming the failure's
error class. -/
theorem claim4_fetch_error_response (url : String) (bots : List String) (inc : Bool)
    (errClass : String) :
    (check_ai_bot_block url bots inc (.error errClass)).robotsTxtFound = false ∧
    (check_ai_bot_block url bots inc (.error errClass)).statusCode = none ∧
    (check_ai_bot_block url bots inc (.error errClass)).blockedBots = [] ∧
    (check_ai_bot_block url bots inc (.error errClass)).results = [] ∧
    (check_ai_bot_block url bots inc (.error errClass)).warnings =
      ["Fetch error: " ++ errClass] :=
  ⟨rfl, rfl, rfl, rfl, rfl⟩

/-- C5: on a completed fetch with a non-200 status or a whitespace-only body,
the handler responds with `robotsTxtFound = false`, the received status code
preserved, empty `results` and `blockedBots`, and no warning. -/
theorem claim5_not_found_response (url : String) (bots : List String) (inc : Bool)
    (status : Nat) (text : String) (h : status ≠ 200 ∨ pyStrip text = "") :
    (check_ai_bot_block url bots inc (.response status text)).robotsTxtFound = false ∧
    (check_ai_bot_block url bots inc (.response status text)).statusCode = some status ∧
    (check_ai_bot_block url bots inc (.response status text)).results = [] ∧
    (check_ai_bot_block url bots inc (.response status text)).blockedBots = [] ∧
    (check_ai_bot_block url bots inc (.response status text)).warnings = [] := by
  rcases h with h | h <;> refine ⟨?_, ?_, ?_, ?_, ?_⟩ <;> simp [check_ai_bot_block, h]

theorem claim5_not_found_response_witness :
    (check_ai_bot_block "https://example.com" ["GPTBot"] true
        (.response 404 "not found")).robotsTxtFound = false ∧
    (check_ai_bot_block "https://example.com" ["GPTBot"] true
        (.response 404 "not found")).statusCode = some 404 ∧
    (check_ai_bot_block "https://example.com" ["GPTBot"] true
        (.response 404 "not found")).results = [] ∧
    (check_ai_bot_block "https://example.com" ["GPTBot"] true
        (.response 404 "not found")).blockedBots = [] ∧
    (check_ai_bot_block "https://example.com" ["GPTBot"] true
        (.response 404 "not found")).warnings = [] :=
  claim5_not_found_response "https://example.com" ["GPTBot"] true 404 "not found"
    (Or.inl (by decide))

/-- C6: on the body `User-agent: GPTBot\nDisallow: /` with bots `[GPTBot]`,
the response has `robotsTxtFound = true`, `blockedBots = [GPTBot]` and the
single result's `canFetchRoot = false`; on the body `User-agent: *\nAllow: /`
with bots `[GPTBot, ClaudeBot]`, both results have `canFetchRoot = true` and
`blockedBots = []`. -/
theorem claim6_robots_examples :
    ((check_ai_bot_block "https://example.com" ["GPTBot"] true
        (.response 200 "User-agent: GPTBot\nDisallow: /")).robotsTxtFound = true ∧
     (check_ai_bot_block "https://example.com" ["GPTBot"] true
        (.response 200 "User-agent: GPTBot\nDisallow: /")).blockedBots = ["GPTBot"] ∧
     (check_ai_bot_block "https://example.com" ["GPTBot"] true
        (.response 200 "User-agent: GPTBot\nDisallow: /")).results.map
        (fun r => r.canFetchRoot) = [false]) ∧
    ((check_ai_bot_block "https://example.com" ["GPTBot", "ClaudeBot"] true
        (.response 200 "User-agent: *\nAllow: /")).results.map
        (fun r => r.canFetchRoot) = [true, true] ∧
     (check_ai_bot_block "https://example.com" ["GPTBot", "ClaudeBot"] true
        (.response 200 "User-agent: *\nAllow: /")).blockedBots = []) := by
  decide

/-- C7: in every `BotResult` the handler produces, `canFetchSitewide` equals
`canFetchRoot`; no evaluation makes the two fields differ. -/
theorem claim7_sitewide_equals_root (url : String) (bots : List String) (inc : Bool)
    (fetch : FetchOutcome) :
    (check_ai_bot_block url bots inc fetch).results.all
      (fun r => r.canFetchSitewide == r.canFetchRoot) = true := by
  cases fetch with
  | error e => rfl
  | response status text =>
    by_cases hc : status ≠ 200 ∨ pyStrip text = ""
    · simp [check_ai_bot_block, hc]
    · simp [check_ai_bot_block, hc]
      rw [foldl_botStep]
      simp [List.all_map, Function.comp_def]

/-- C8: the `robotsTxt` field is the raw fetched text exactly when the file
was found and `includeRobotsTxt` is true, and `null` in every other case. -/
theorem claim8_robotsTxt_echo (url : String) (bots : List String) (inc : Bool)
    (fetch : FetchOutcome) :
    (check_ai_bot_block url bots inc fetch).robotsTxt =
      (match fetch with
       | .error _ => none
       | .response _ text =>
         if (check_ai_bot_block url bots inc fetch).robotsTxtFound = true ∧ inc = true
         then some text else none) := by
  cases fetch with
  | error e => rfl
  | response status text =>
    by_cases hc : status ≠ 200 ∨ pyStrip text = ""
    · simp [check_ai_bot_block, hc]
    · cases inc <;> simp [check_ai_bot_block, hc]

/-- C9 (implicit): `robotsTxtFound = true` only arises from a response with
status code exactly 200 and a body that is nonempty after stripping
whitespace, and then `statusCode` is `some 200`. -/
theorem claim9_found_implies_200_nonempty (url : String) (bots : List String)
    (inc : Bool) (fetch : FetchOutcome)
    (h : (check_ai_bot_block url bots inc fetch).robotsTxtFound = true) :
    (check_ai_bot_block url bots inc fetch).statusCode = some 200 ∧
    ∃ text, fetch = .response 200 text ∧ pyStrip text ≠ "" := by
  cases fetch with
  | error e => simp [check_ai_bot_block] at h
  | response status text =>
    by_cases hc : status ≠ 200 ∨ pyStrip text = ""
    · simp [check_ai_bot_block, hc] at h
    · push_neg at hc
      obtain ⟨h200, hne⟩ := hc
      subst h200
      exact ⟨by simp [check_ai_bot_block, hne], text, rfl, hne⟩

theorem claim9_found_implies_200_nonempty_witness :
    (check_ai_bot_block "https://example.com" ["GPTBot"] true
        (.response 200 "User-agent: GPTBot\nDisallow: /")).statusCode = some 200 ∧
    ∃ text, (FetchOutcome.response 200 "User-agent: GPTBot\nDisallow: /") =
        FetchOutcome.response 200 text ∧ pyStrip text ≠ "" :=
  claim9_found_implies_200_nonempty "https://example.com" ["GPTBot"] true
    (.response 200 "User-agent: GPTBot\nDisallow: /") (by decide)

/-- C10 (implicit): in every response branch, `robotsUrl` equals the
normalized origin of the request URL with trailing slashes stripped,
followed by `/robots.txt`. -/
theorem claim10_robotsUrl_shape (url : String) (bots : List String) (inc : Bool)
    (fetch : FetchOutcome) :
    (check_ai_bot_block url bots inc fetch).robotsUrl =
      pyRstripSlash (normalize_to_origin url) ++ "/robots.txt" := by
  cases fetch with
  | error e => rfl
  | response status text =>
    by_cases hc : status ≠ 200 ∨ pyStrip text = "" <;> simp [check_ai_bot_block, hc]

end BotBlock
